import Mathlib

/-!
Verification of the `data-staining` research harness (files `budget_test.py`
and `utils.py`) against its natural-language specification.

The Python code is shallowly embedded: floats are modelled as `ℚ`,
pandas frames as lists of row structures, `numpy` boolean columns as
`List Bool`, and fallible code as an explicit result type.  Each claim of
the specification is stated and settled as a theorem below the definitions.
-/

/- ------------------------------------------------------------------ -/
/- Budget-sweep evaluation loop (`budget_test.py`, `run_seed`)         -/
/- ------------------------------------------------------------------ -/

/-- Constant `N_SAMPLES = 50` from `budget_test.py` line 53. -/
def N_SAMPLES : ℕ := 50

/-- Constant `MAX_BUDGET = 5` from `budget_test.py` line 52. -/
def MAX_BUDGET : ℕ := 5

/-- An explainer adapter: `explain(instance, budget)` returns a list of
feature names.  Instances are feature vectors (rows of `X_explain`). -/
abbrev ExplainFn := List ℚ → ℕ → List String

/-- Per-instance recall, from `budget_test.py` lines 187-191:
`recall` counts the bias words occurring in `top_feats`, then is divided
by `args.bias_length`. -/
def instanceRecall (biasWords : List String) (biasLength : ℕ)
    (topFeats : List String) : ℚ :=
  ((biasWords.countP fun w => topFeats.contains w : ℕ) : ℚ) / (biasLength : ℚ)

/-- `n_samples = min(N_SAMPLES, len(X_explain))`, `budget_test.py` line 154. -/
def nSamplesOf (xExplain : List (List ℚ)) : ℕ := min N_SAMPLES xExplain.length

/-- The sequence of arguments passed to `explainer.explain` during one
budget iteration: `for i in range(n_samples): explainer.explain(X_explain[i],
budget)` (`budget_test.py` lines 183-185). -/
def explainCalls (xExplain : List (List ℚ)) (nSamples budget : ℕ) :
    List (List ℚ × ℕ) :=
  (List.range nSamples).map fun i => (xExplain.getD i [], budget)

/-- The average recall recorded in the run log for one (explainer, budget)
pair: `recall_sum` accumulated over `range(n_samples)` then divided by
`n_samples` (`budget_test.py` lines 179-198). -/
def budgetAvgRecall (ex : ExplainFn) (biasWords : List String)
    (biasLength : ℕ) (xExplain : List (List ℚ)) (nSamples budget : ℕ) : ℚ :=
  (((List.range nSamples).map fun i =>
      instanceRecall biasWords biasLength (ex (xExplain.getD i []) budget)).sum)
    / (nSamples : ℚ)

/-- One persisted run-log record of the sweep: explainer name, budget and
the mean recall stored in `runlog` before `utils.save_log` is called. -/
structure SweepRecord where
  explainer : String
  budget : ℕ
  recallValue : ℚ
deriving Repr, DecidableEq

/-- The budget-sweep loop of `run_seed` (`budget_test.py` lines 164-206):
for each explainer in the registry and each budget in `range(1,
MAX_BUDGET + 1)`, one record with the mean recall is produced. -/
def runSeedSweep (explainers : List (String × ExplainFn))
    (biasWords : List String) (biasLength : ℕ)
    (xExplain : List (List ℚ)) : List SweepRecord :=
  explainers.flatMap fun e =>
    (List.range MAX_BUDGET).map fun b =>
      ⟨e.1, b + 1,
        budgetAvgRecall e.2 biasWords biasLength xExplain
          (nSamplesOf xExplain) (b + 1)⟩

/-- Spec-side per-instance recall, following the specification words:
the number of true bias words appearing among the returned top features,
divided by the bias length. -/
def specPerInstanceRecall (biasWords : List String) (biasLength : ℕ)
    (topFeats : List String) : ℚ :=
  (((biasWords.filter fun w => topFeats.contains w).length : ℕ) : ℚ)
    / (biasLength : ℚ)

lemma map_range_getD {α β : Type} (l : List α) (n : ℕ) (d : α) (f : α → β)
    (hn : n ≤ l.length) :
    ((List.range n).map fun i => f (l.getD i d)) = (l.take n).map f := by
  apply List.ext_get
  · simp [Nat.min_eq_left hn]
  · intro i h1 h2
    simp only [List.get_eq_getElem, List.getElem_map, List.getElem_range,
      List.getElem_take]
    have hi : i < l.length := by
      have := h1
      simp at this
      omega
    rw [List.getD_eq_getElem?_getD, List.getElem?_eq_getElem hi]
    rfl

lemma instanceRecall_eq_spec (biasWords : List String) (biasLength : ℕ)
    (topFeats : List String) :
    instanceRecall biasWords biasLength topFeats
      = specPerInstanceRecall biasWords biasLength topFeats := by
  unfold instanceRecall specPerInstanceRecall
  rw [List.countP_eq_length_filter]

/-- C1: in the budget-sweep loop, for every explainer in the sweep and
every budget between 1 and `MAX_BUDGET`, `explain` is invoked on exactly
the first `n = min(N_SAMPLES, |X_explain|)` instances of the biased
subset, and the recall recorded for that (explainer, budget) pair is the
arithmetic mean of the per-instance recalls
`|bias words among top features| / bias_length`. -/
theorem c1_budget_sweep (explainers : List (String × ExplainFn))
    (biasWords : List String) (biasLength : ℕ) (xExplain : List (List ℚ))
    (hne : 0 < xExplain.length) :
    ∀ name ex, (name, ex) ∈ explainers →
      ∀ budget, 1 ≤ budget → budget ≤ MAX_BUDGET →
        explainCalls xExplain (nSamplesOf xExplain) budget
            = (xExplain.take (min N_SAMPLES xExplain.length)).map
                (fun inst => (inst, budget))
          ∧ (⟨name, budget,
                (((xExplain.take (min N_SAMPLES xExplain.length)).map fun inst =>
                    specPerInstanceRecall biasWords biasLength
                      (ex inst budget)).sum)
                  / ((min N_SAMPLES xExplain.length : ℕ) : ℚ)⟩ : SweepRecord)
              ∈ runSeedSweep explainers biasWords biasLength xExplain := by
  intro name ex hmem budget h1 h5
  have hmin : min N_SAMPLES xExplain.length ≤ xExplain.length :=
    Nat.min_le_right _ _
  constructor
  · unfold explainCalls nSamplesOf
    exact map_range_getD xExplain _ [] (fun inst => (inst, budget)) hmin
  · unfold runSeedSweep
    rw [List.mem_flatMap]
    refine ⟨(name, ex), hmem, ?_⟩
    rw [List.mem_map]
    refine ⟨budget - 1, ?_, ?_⟩
    · rw [List.mem_range]
      unfold MAX_BUDGET at h5 ⊢
      omega
    · have hb : budget - 1 + 1 = budget := by omega
      rw [hb]
      have hrec : budgetAvgRecall ex biasWords biasLength xExplain
          (nSamplesOf xExplain) budget
          = (((xExplain.take (min N_SAMPLES xExplain.length)).map fun inst =>
                specPerInstanceRecall biasWords biasLength (ex inst budget)).sum)
              / ((min N_SAMPLES xExplain.length : ℕ) : ℚ) := by
        unfold budgetAvgRecall nSamplesOf
        rw [map_range_getD xExplain _ []
          (fun inst => instanceRecall biasWords biasLength (ex inst budget)) hmin]
        congr 1
        congr 1
        exact List.map_congr_left fun inst _ => instanceRecall_eq_spec _ _ _
      rw [hrec]

theorem c1_budget_sweep_witness :
    0 < ([[(1 : ℚ)]] : List (List ℚ)).length ∧
      (explainCalls [[(1 : ℚ)]] (nSamplesOf [[(1 : ℚ)]]) 1
          = (([[(1 : ℚ)]] : List (List ℚ)).take
              (min N_SAMPLES ([[(1 : ℚ)]] : List (List ℚ)).length)).map
                (fun inst => (inst, 1))
        ∧ (⟨"GT", 1,
              (((([[(1 : ℚ)]] : List (List ℚ)).take
                  (min N_SAMPLES ([[(1 : ℚ)]] : List (List ℚ)).length)).map
                    fun inst =>
                      specPerInstanceRecall ["bw"] 1
                        ((fun (_ : List ℚ) (_ : ℕ) => ["bw"]) inst 1)).sum)
                / ((min N_SAMPLES ([[(1 : ℚ)]] : List (List ℚ)).length : ℕ) : ℚ)⟩ :
              SweepRecord)
            ∈ runSeedSweep [("GT", fun (_ : List ℚ) (_ : ℕ) => ["bw"])]
                ["bw"] 1 [[(1 : ℚ)]]) :=
  ⟨by decide,
    c1_budget_sweep [("GT", fun (_ : List ℚ) (_ : ℕ) => ["bw"])] ["bw"] 1
      [[(1 : ℚ)]] (by decide) "GT" (fun (_ : List ℚ) (_ : ℕ) => ["bw"])
      (List.mem_singleton.mpr rfl) 1 (le_refl 1) (by decide)⟩

/-- C8: per-instance recall is between 0 and 1 whenever the bias word
list has exactly `bias_length` elements, and for nested top-feature sets
(every feature reported at the smaller budget also reported at the larger
one) the recall is non-decreasing in the budget. -/
theorem c8_recall_bounds_mono (ex : ExplainFn) (biasWords : List String)
    (biasLength : ℕ) (inst : List ℚ) (b bh : ℕ)
    (hlen : biasWords.length = biasLength) (hbb : b ≤ bh) :
    (0 ≤ instanceRecall biasWords biasLength (ex inst b)
        ∧ instanceRecall biasWords biasLength (ex inst b) ≤ 1)
      ∧ ((∀ w, w ∈ ex inst b → w ∈ ex inst bh) →
          instanceRecall biasWords biasLength (ex inst b)
            ≤ instanceRecall biasWords biasLength (ex inst bh)) := by
  constructor
  · constructor
    · unfold instanceRecall
      apply div_nonneg
      · exact_mod_cast Nat.zero_le _
      · exact_mod_cast Nat.zero_le _
    · unfold instanceRecall
      have hcount : (biasWords.countP fun w => (ex inst b).contains w)
          ≤ biasLength := by
        rw [← hlen]
        exact List.countP_le_length _
      by_cases h0 : biasLength = 0
      · have : (biasWords.countP fun w => (ex inst b).contains w) = 0 := by
          omega
        rw [this, h0]
        norm_num
      · rw [div_le_one (by exact_mod_cast Nat.pos_of_ne_zero h0)]
        exact_mod_cast hcount
  · intro hnest
    unfold instanceRecall
    have hmono : (biasWords.countP fun w => (ex inst b).contains w)
        ≤ biasWords.countP fun w => (ex inst bh).contains w := by
      apply List.countP_mono_left
      intro w _ hw
      have hwmem : w ∈ ex inst b := List.elem_iff.mp hw
      exact List.elem_iff.mpr (hnest w hwmem)
    exact div_le_div_of_nonneg_right (by exact_mod_cast hmono)
      (by exact_mod_cast Nat.zero_le _)

theorem c8_recall_bounds_mono_witness :
    ((["bw"] : List String).length = 1 ∧ 1 ≤ 2) ∧
      ((0 ≤ instanceRecall ["bw"] 1
            ((fun (_ : List ℚ) (k : ℕ) => if k = 1 then ["bw"] else ["bw", "x"]) [] 1)
          ∧ instanceRecall ["bw"] 1
              ((fun (_ : List ℚ) (k : ℕ) => if k = 1 then ["bw"] else ["bw", "x"]) [] 1) ≤ 1)
        ∧ ((∀ w, w ∈ (fun (_ : List ℚ) (k : ℕ) =>
                if k = 1 then ["bw"] else ["bw", "x"]) [] 1 →
              w ∈ (fun (_ : List ℚ) (k : ℕ) =>
                if k = 1 then ["bw"] else ["bw", "x"]) [] 2) →
            instanceRecall ["bw"] 1
                ((fun (_ : List ℚ) (k : ℕ) => if k = 1 then ["bw"] else ["bw", "x"]) [] 1)
              ≤ instanceRecall ["bw"] 1
                  ((fun (_ : List ℚ) (k : ℕ) => if k = 1 then ["bw"] else ["bw", "x"]) [] 2))) :=
  ⟨⟨rfl, by omega⟩,
    c8_recall_bounds_mono
      (fun (_ : List ℚ) (k : ℕ) => if k = 1 then ["bw"] else ["bw", "x"])
      ["bw"] 1 [] 1 2 rfl (by omega)⟩

/- ------------------------------------------------------------------ -/
/- Sample weights in `train_models` (`utils.py` lines 61-123)          -/
/- ------------------------------------------------------------------ -/

/-- Weight vector `sample_weight_orig`: 1.0 for every training example
(`utils.py` lines 70-73). -/
def sample_weight_orig (biased : List Bool) : List ℚ :=
  biased.map fun _ => 1

/-- `r = train_df['biased'].sum()`: number of biased training rows
(`utils.py` line 66). -/
def biasedCount (biased : List Bool) : ℕ :=
  (biased.filter id).length

/-- Weight vector `sample_weight_bias`: 1.0 for biased rows and `r / nr`
for the rest, with `nr = len(train_df) - r` (`utils.py` lines 66-74). -/
def sample_weight_bias (biased : List Bool) : List ℚ :=
  biased.map fun b =>
    if b then 1
    else ((biasedCount biased : ℚ)
      / ((biased.length - biasedCount biased : ℕ) : ℚ))

/-- Which weight vector each model is fitted with, as a function of
`runlog['model_type']`.  First component: weights passed when fitting
`model_orig`; second: weights passed when fitting `model_bias`.  In the
`'mlp'`/`'lstm'` branch of `train_models` (`utils.py` lines 86-110) the
dict `X_train_bias` is built with `sample_weight_orig` and `X_train_orig`
with `sample_weight_bias`, so the two vectors are passed swapped; in the
pipeline branch (`utils.py` lines 111-118) `pipe_orig` gets
`sample_weight_orig` and `pipe_bias` gets `sample_weight_bias`. -/
def fitWeights (model_type : String) (biased : List Bool) :
    List ℚ × List ℚ :=
  if model_type = "mlp" ∨ model_type = "lstm" then
    (sample_weight_bias biased, sample_weight_orig biased)
  else
    (sample_weight_orig biased, sample_weight_bias biased)

/-- C2 (code bug): evaluating the weight wiring at `model_type = 'mlp'`
with one biased and two non-biased rows shows the original model fitted
with the downweighted vector and the biased model with the all-ones
vector — the opposite of the claim (and of the pipeline branch, which
matches the claim). -/
theorem c2_mlp_weight_swap :
    fitWeights "mlp" [true, false, false]
        = (sample_weight_bias [true, false, false],
            sample_weight_orig [true, false, false])
      ∧ fitWeights "logistic" [true, false, false]
          = (sample_weight_orig [true, false, false],
              sample_weight_bias [true, false, false])
      ∧ sample_weight_orig [true, false, false] = [1, 1, 1]
      ∧ sample_weight_bias [true, false, false] = [1, 1/2, 1/2]
      ∧ (fitWeights "mlp" [true, false, false]).1 ≠ [1, 1, 1] := by
  refine ⟨rfl, rfl, rfl, ?_, ?_⟩
  · norm_num [sample_weight_bias, biasedCount, List.filter]
  · show sample_weight_bias [true, false, false] ≠ [1, 1, 1]
    norm_num [sample_weight_bias, biasedCount, List.filter]

/- ------------------------------------------------------------------ -/
/- Module compatibility between `budget_test.run_seed` and `utils`      -/
/- ------------------------------------------------------------------ -/

/-- A Python function signature: name, number of parameters without a
default, total number of parameters. -/
structure PyFunc where
  name : String
  requiredParams : ℕ
  totalParams : ℕ
deriving Repr, DecidableEq

/-- The functions defined by `utils.py` with their signatures:
`load_dataset(data_path, train_size, runlog, quiet=False)`,
`oversample(train_df, r_factor=1.0, quiet=False)`,
`train_models(model_constructor, train_df, runlog, bias_only=False,
quiet=False)`, `evaluate_models(model_orig, model_bias, test_df, runlog,
quiet=False)`, `save_log(log_dir, runlog, quiet=False)`. -/
def utilsFunctions : List PyFunc :=
  [⟨"load_dataset", 3, 4⟩,
   ⟨"oversample", 1, 3⟩,
   ⟨"train_models", 3, 5⟩,
   ⟨"evaluate_models", 4, 5⟩,
   ⟨"save_log", 2, 3⟩]

/-- The calls `run_seed` makes into the `utils` module, with the number
of positional arguments passed (`budget_test.py` lines 92, 110-116, 130,
133-138, 140, 206). -/
def runSeedUtilsCalls : List (String × ℕ) :=
  [("load_dataset", 3),
   ("vectorize_dataset", 5),
   ("resample", 2),
   ("train_models", 4),
   ("evaluate_models", 4),
   ("save_log", 3)]

/-- A call `(name, npos)` resolves against a module iff the module has a
function of that name accepting `npos` positional arguments. -/
def callResolves (fns : List PyFunc) (c : String × ℕ) : Bool :=
  match fns.find? (fun f => f.name == c.1) with
  | none => false
  | some f => decide (f.requiredParams ≤ c.2 ∧ c.2 ≤ f.totalParams)

/-- C3 (code bug): `run_seed`'s calls to `utils.vectorize_dataset` and
`utils.resample` do not resolve in the shipped `utils.py` (no function of
either name exists there), so the claim that every `utils` call from
`run_seed` succeeds fails; the four remaining calls do resolve. -/
theorem c3_utils_call_compat :
    callResolves utilsFunctions ("vectorize_dataset", 5) = false
      ∧ callResolves utilsFunctions ("resample", 2) = false
      ∧ (runSeedUtilsCalls.filter fun c => callResolves utilsFunctions c)
          = [("load_dataset", 3), ("train_models", 4),
             ("evaluate_models", 4), ("save_log", 3)]
      ∧ ¬ (∀ c ∈ runSeedUtilsCalls, callResolves utilsFunctions c = true) := by
  decide

/- ------------------------------------------------------------------ -/
/- Resampling (`utils.py`, `oversample`, lines 36-58)                  -/
/- ------------------------------------------------------------------ -/

/-- A row of the training frame built in `run_seed` (`budget_test.py`
lines 119-122): feature values plus the `label_orig`, `label_bias` and
`biased` columns. -/
structure DFRow where
  features : List ℚ
  label_orig : ℕ
  label_bias : ℕ
  biased : Bool
deriving Repr, DecidableEq, Inhabited

/-- Outcome of `oversample`: a returned frame, a pandas `KeyError` from
`counts[0]`/`counts[1]` when a class is absent from `value_counts`, or
the `assert False` on line 49. -/
inductive OversampleResult where
  | ok : List DFRow → OversampleResult
  | keyError : OversampleResult
  | assertionError : OversampleResult
deriving Repr, DecidableEq

/-- Python `int(...)` on a float: truncation toward zero. -/
def pyInt (q : ℚ) : ℤ := if 0 ≤ q then ⌊q⌋ else ⌈q⌉

/-- `DataFrame.sample(n, replace=True)` from a non-empty pool: `n`
independent picks, modelled by an arbitrary index choice `pick`. -/
def pySampleReplace (pool : List DFRow) (n : ℕ) (pick : ℕ → ℕ) :
    List DFRow :=
  (List.range n).map fun i => pool.getD (pick i % pool.length) default

/-- `oversample(train_df, r_factor)` (`utils.py` lines 36-58):
`counts[0]` and `counts[1]` are read (raising `KeyError` when the value
is absent), `diff = int((not_R_count - R_count) * r_factor)` is computed,
and if `diff > 0` the frame plus `diff` resampled biased rows is
returned, else `assert False` fires. -/
def oversample (train_df : List DFRow) (r_factor : ℚ) (pick : ℕ → ℕ) :
    OversampleResult :=
  if (train_df.filter fun r => !r.biased).length = 0 then .keyError
  else if (train_df.filter fun r => r.biased).length = 0 then .keyError
  else if 0 < pyInt ((((train_df.filter fun r => !r.biased).length : ℚ)
      - ((train_df.filter fun r => r.biased).length : ℚ)) * r_factor) then
    .ok (train_df ++ pySampleReplace (train_df.filter fun r => r.biased)
      (pyInt ((((train_df.filter fun r => !r.biased).length : ℚ)
        - ((train_df.filter fun r => r.biased).length : ℚ))
          * r_factor)).toNat pick)
  else .assertionError

lemma pyInt_nat_sub (a b : ℕ) :
    pyInt (((a : ℚ) - (b : ℚ)) * 1) = (a : ℤ) - (b : ℤ) := by
  rw [mul_one]
  have hcast : ((a : ℚ) - (b : ℚ)) = (((a : ℤ) - (b : ℤ) : ℤ) : ℚ) := by
    push_cast
    ring
  rw [hcast]
  unfold pyInt
  split_ifs with h
  · exact Int.floor_intCast _
  · exact Int.ceil_intCast _

lemma oversample_one (df : List DFRow) (pick : ℕ → ℕ)
    (hR : (df.filter fun r => r.biased).length ≠ 0)
    (hN : (df.filter fun r => !r.biased).length ≠ 0) :
    oversample df 1 pick =
      if (df.filter fun r => r.biased).length
          < (df.filter fun r => !r.biased).length then
        .ok (df ++ pySampleReplace (df.filter fun r => r.biased)
          ((df.filter fun r => !r.biased).length
            - (df.filter fun r => r.biased).length) pick)
      else .assertionError := by
  unfold oversample
  rw [if_neg hN, if_neg hR, pyInt_nat_sub]
  by_cases hlt : (df.filter fun r => r.biased).length
      < (df.filter fun r => !r.biased).length
  · have ht : (((df.filter fun r => !r.biased).length : ℤ)
        - ((df.filter fun r => r.biased).length : ℤ)).toNat
        = (df.filter fun r => !r.biased).length
          - (df.filter fun r => r.biased).length := by
      omega
    rw [if_pos (by omega), ht, if_pos hlt]
  · rw [if_neg (by omega), if_neg hlt]

lemma pySampleReplace_subset (pool : List DFRow) (n : ℕ) (pick : ℕ → ℕ)
    (hp : pool ≠ []) :
    ∀ x ∈ pySampleReplace pool n pick, x ∈ pool := by
  intro x hx
  unfold pySampleReplace at hx
  rw [List.mem_map] at hx
  obtain ⟨i, _, rfl⟩ := hx
  have hlen : 0 < pool.length := List.length_pos.mpr hp
  have hm : pick i % pool.length < pool.length := Nat.mod_lt _ hlen
  rw [List.getD_eq_getElem?_getD, List.getElem?_eq_getElem hm]
  exact List.getElem_mem hm

/-- C4 counterexample: a frame whose biased rows are a strict minority
because there are none at all makes `oversample` raise `KeyError` at the
`counts[1]` lookup, so it does not return the input plus biased
duplicates as claimed. -/
theorem c4_counterexample :
    ¬ (∀ (pick : ℕ → ℕ) (df : List DFRow),
        (df.filter fun r => r.biased).length
            < (df.filter fun r => !r.biased).length →
        ∃ extra : List DFRow,
          oversample df 1 pick = .ok (df ++ extra)
            ∧ ∀ x ∈ extra, x ∈ df.filter fun r => r.biased) := by
  intro h
  obtain ⟨extra, heq, -⟩ :=
    h (fun _ => 0) [⟨[], 0, 0, false⟩] (by decide)
  have hkey : oversample [⟨[], 0, 0, false⟩] 1 (fun _ => 0) = .keyError := rfl
  rw [hkey] at heq
  exact OversampleResult.noConfusion heq

/-- C4 (amended): for a frame with at least one biased row whose biased
rows are a strict minority, `oversample` at the default factor returns
the input rows plus duplicates of existing biased rows only: every added
row is one of the original biased rows, the set of distinct row values is
unchanged, and the non-biased row count is unchanged. -/
theorem c4_oversample_content (pick : ℕ → ℕ) (df : List DFRow)
    (h1 : 0 < (df.filter fun r => r.biased).length)
    (h2 : (df.filter fun r => r.biased).length
        < (df.filter fun r => !r.biased).length) :
    ∃ extra : List DFRow,
      oversample df 1 pick = .ok (df ++ extra)
        ∧ (∀ x ∈ extra, x ∈ df.filter fun r => r.biased)
        ∧ (∀ x : DFRow, x ∈ df ++ extra ↔ x ∈ df)
        ∧ ((df ++ extra).filter fun r => !r.biased).length
            = (df.filter fun r => !r.biased).length := by
  have hpool : (df.filter fun r => r.biased) ≠ [] := by
    intro hnil
    rw [hnil] at h1
    exact absurd h1 (by simp)
  refine ⟨pySampleReplace (df.filter fun r => r.biased)
      ((df.filter fun r => !r.biased).length
        - (df.filter fun r => r.biased).length) pick, ?_, ?_, ?_, ?_⟩
  · rw [oversample_one df pick (by omega) (by omega), if_pos h2]
  · exact pySampleReplace_subset _ _ _ hpool
  · intro x
    rw [List.mem_append]
    constructor
    · rintro (hx | hx)
      · exact hx
      · exact (List.mem_filter.mp
          (pySampleReplace_subset _ _ _ hpool x hx)).1
    · intro hx
      exact Or.inl hx
  · rw [List.filter_append, List.length_append]
    have hnil : (List.filter (fun r => !r.biased)
        (pySampleReplace (df.filter fun r => r.biased)
          ((df.filter fun r => !r.biased).length
            - (df.filter fun r => r.biased).length) pick)) = [] := by
      rw [List.filter_eq_nil_iff]
      intro x hx
      have hb : x.biased = true :=
        (List.mem_filter.mp (pySampleReplace_subset _ _ _ hpool x hx)).2
      simp [hb]
    rw [hnil]
    simp

theorem c4_oversample_content_witness :
    (0 < (([⟨[], 1, 1, true⟩, ⟨[], 0, 0, false⟩, ⟨[], 0, 0, false⟩] :
          List DFRow).filter fun r => r.biased).length
      ∧ (([⟨[], 1, 1, true⟩, ⟨[], 0, 0, false⟩, ⟨[], 0, 0, false⟩] :
          List DFRow).filter fun r => r.biased).length
          < (([⟨[], 1, 1, true⟩, ⟨[], 0, 0, false⟩, ⟨[], 0, 0, false⟩] :
              List DFRow).filter fun r => !r.biased).length)
      ∧ ∃ extra : List DFRow,
          oversample [⟨[], 1, 1, true⟩, ⟨[], 0, 0, false⟩, ⟨[], 0, 0, false⟩]
              1 (fun _ => 0)
            = .ok ([⟨[], 1, 1, true⟩, ⟨[], 0, 0, false⟩, ⟨[], 0, 0, false⟩] ++ extra)
          ∧ (∀ x ∈ extra,
              x ∈ ([⟨[], 1, 1, true⟩, ⟨[], 0, 0, false⟩, ⟨[], 0, 0, false⟩] :
                List DFRow).filter fun r => r.biased)
          ∧ (∀ x : DFRow,
              x ∈ ([⟨[], 1, 1, true⟩, ⟨[], 0, 0, false⟩, ⟨[], 0, 0, false⟩] :
                  List DFRow) ++ extra
                ↔ x ∈ ([⟨[], 1, 1, true⟩, ⟨[], 0, 0, false⟩, ⟨[], 0, 0, false⟩] :
                    List DFRow))
          ∧ ((([⟨[], 1, 1, true⟩, ⟨[], 0, 0, false⟩, ⟨[], 0, 0, false⟩] :
                List DFRow) ++ extra).filter fun r => !r.biased).length
              = (([⟨[], 1, 1, true⟩, ⟨[], 0, 0, false⟩, ⟨[], 0, 0, false⟩] :
                  List DFRow).filter fun r => !r.biased).length :=
  ⟨⟨by decide, by decide⟩,
    c4_oversample_content (fun _ => 0)
      [⟨[], 1, 1, true⟩, ⟨[], 0, 0, false⟩, ⟨[], 0, 0, false⟩]
      (by decide) (by decide)⟩

/-- C5 counterexample: a frame whose rows are all biased has the biased
count equal to or exceeding the non-biased count, yet `oversample` fails
with `KeyError` at the `counts[0]` lookup, not with the assertion, so the
claimed equivalence is false. -/
theorem c5_counterexample :
    ¬ (∀ (pick : ℕ → ℕ) (df : List DFRow),
        oversample df 1 pick = .assertionError
          ↔ (df.filter fun r => !r.biased).length
              ≤ (df.filter fun r => r.biased).length) := by
  intro h
  have h2 := (h (fun _ => 0) [⟨[], 0, 0, true⟩]).mpr (by decide)
  have hkey : oversample [⟨[], 0, 0, true⟩] 1 (fun _ => 0) = .keyError := rfl
  rw [hkey] at h2
  exact OversampleResult.noConfusion h2

/-- C5 (amended): when both classes are present in the frame,
`oversample` at the default factor fails with the assertion exactly when
the biased row count equals or exceeds the non-biased row count, and in
that case no frame is returned. -/
theorem c5_oversample_assert_iff (pick : ℕ → ℕ) (df : List DFRow)
    (h1 : 0 < (df.filter fun r => r.biased).length)
    (h2 : 0 < (df.filter fun r => !r.biased).length) :
    oversample df 1 pick = .assertionError
      ↔ (df.filter fun r => !r.biased).length
          ≤ (df.filter fun r => r.biased).length := by
  rw [oversample_one df pick (by omega) (by omega)]
  by_cases hlt : (df.filter fun r => r.biased).length
      < (df.filter fun r => !r.biased).length
  · rw [if_pos hlt]
    constructor
    · intro h
      exact absurd h (by simp)
    · intro h
      exact absurd h (by omega)
  · rw [if_neg hlt]
    exact ⟨fun _ => by omega, fun _ => rfl⟩

theorem c5_oversample_assert_iff_witness :
    (0 < (([⟨[], 0, 0, true⟩, ⟨[], 0, 0, false⟩] :
          List DFRow).filter fun r => r.biased).length
      ∧ 0 < (([⟨[], 0, 0, true⟩, ⟨[], 0, 0, false⟩] :
          List DFRow).filter fun r => !r.biased).length)
      ∧ (oversample [⟨[], 0, 0, true⟩, ⟨[], 0, 0, false⟩] 1 (fun _ => 0)
            = .assertionError
          ↔ (([⟨[], 0, 0, true⟩, ⟨[], 0, 0, false⟩] :
              List DFRow).filter fun r => !r.biased).length
              ≤ (([⟨[], 0, 0, true⟩, ⟨[], 0, 0, false⟩] :
                  List DFRow).filter fun r => r.biased).length) :=
  ⟨⟨by decide, by decide⟩,
    c5_oversample_assert_iff (fun _ => 0)
      [⟨[], 0, 0, true⟩, ⟨[], 0, 0, false⟩] (by decide) (by decide)⟩

/- ------------------------------------------------------------------ -/
/- Evaluation (`utils.py`, `evaluate_models`, lines 127-169)           -/
/- ------------------------------------------------------------------ -/

/-- A row of the test frame consumed by `evaluate_models`: the raw text
plus the `label_orig`, `label_bias` and `biased` columns. -/
structure TestRow where
  reviews : String
  label_orig : ℕ
  label_bias : ℕ
  biased : Bool
deriving Repr, DecidableEq

/-- The test frame with its two prediction columns, which are absent
(`none`) until `evaluate_models` assigns them. -/
structure TestFrame where
  rows : List TestRow
  predict_orig : Option (List ℕ)
  predict_bias : Option (List ℕ)
deriving Repr, DecidableEq

/-- `sklearn.metrics.accuracy_score` on (y_true, y_pred) pairs: the mean
of an empty array is NaN (modelled as `none`), otherwise the fraction of
matching pairs. -/
def accuracy_score (pairs : List (ℕ × ℕ)) : Option ℚ :=
  if pairs.length = 0 then none
  else some (((pairs.countP fun p => p.1 == p.2 : ℕ) : ℚ)
    / ((pairs.length : ℕ) : ℚ))

/-- `sklearn.metrics.f1_score` with the default zero-division behaviour:
`2 tp / (2 tp + fp + fn)`, or 0.0 when that denominator is zero. -/
def f1_score (pairs : List (ℕ × ℕ)) : ℚ :=
  if 2 * (pairs.countP fun p => p.1 == 1 && p.2 == 1)
      + (pairs.countP fun p => !(p.1 == 1) && p.2 == 1)
      + (pairs.countP fun p => p.1 == 1 && !(p.2 == 1)) = 0 then 0
  else ((2 * (pairs.countP fun p => p.1 == 1 && p.2 == 1) : ℕ) : ℚ)
    / (((2 * (pairs.countP fun p => p.1 == 1 && p.2 == 1)
      + (pairs.countP fun p => !(p.1 == 1) && p.2 == 1)
      + (pairs.countP fun p => p.1 == 1 && !(p.2 == 1)) : ℕ)) : ℚ)

/-- A test row together with the two per-row model predictions, i.e. the
frame after the `predict_orig`/`predict_bias` column assignments. -/
structure PredRow where
  row : TestRow
  predict_orig : ℕ
  predict_bias : ℕ
deriving Repr, DecidableEq

/-- The rows of the test frame paired with both models' predictions
(`utils.py` lines 134-138). -/
def predRows (predOrig predBias : String → ℕ) (rows : List TestRow) :
    List PredRow :=
  rows.map fun r => ⟨r, predOrig r.reviews, predBias r.reviews⟩

/-- The state after `evaluate_models` returns: the (mutated) test frame
and the metrics added to the run log. -/
structure EvalOut where
  frame : TestFrame
  orig_test_acc : Option ℚ
  bias_test_acc : Option ℚ
  orig_test_f1 : ℚ
  bias_test_f1 : ℚ
  results : List (List (Option ℚ))
deriving Repr, DecidableEq

/-- `evaluate_models(model_orig, model_bias, test_df, runlog)`
(`utils.py` lines 127-169): predicts on the full test set, assigns the
two prediction columns on `test_df`, computes whole-set accuracy and F1
for both models, then partitions by the `biased` column and records the
accuracy matrix `[[orig_r, orig_nr], [bias_r, bias_nr]]`. -/
def evaluate_models (predOrig predBias : String → ℕ)
    (test_df : TestFrame) : EvalOut :=
  { frame :=
      { rows := test_df.rows
      , predict_orig := some (test_df.rows.map fun r => predOrig r.reviews)
      , predict_bias := some (test_df.rows.map fun r => predBias r.reviews) }
  , orig_test_acc := accuracy_score
      ((predRows predOrig predBias test_df.rows).map
        fun p => (p.row.label_orig, p.predict_orig))
  , bias_test_acc := accuracy_score
      ((predRows predOrig predBias test_df.rows).map
        fun p => (p.row.label_bias, p.predict_bias))
  , orig_test_f1 := f1_score
      ((predRows predOrig predBias test_df.rows).map
        fun p => (p.row.label_orig, p.predict_orig))
  , bias_test_f1 := f1_score
      ((predRows predOrig predBias test_df.rows).map
        fun p => (p.row.label_bias, p.predict_bias))
  , results :=
      [[accuracy_score
          (((predRows predOrig predBias test_df.rows).filter
            fun p => p.row.biased).map
              fun p => (p.row.label_orig, p.predict_orig)),
        accuracy_score
          (((predRows predOrig predBias test_df.rows).filter
            fun p => !p.row.biased).map
              fun p => (p.row.label_orig, p.predict_orig))],
       [accuracy_score
          (((predRows predOrig predBias test_df.rows).filter
            fun p => p.row.biased).map
              fun p => (p.row.label_bias, p.predict_bias)),
        accuracy_score
          (((predRows predOrig predBias test_df.rows).filter
            fun p => !p.row.biased).map
              fun p => (p.row.label_bias, p.predict_bias))]] }

/-- C6 counterexample: `evaluate_models` does mutate its test frame — on
a one-row frame without prediction columns, the frame after the call
differs from the frame before (the two prediction columns were set). -/
theorem c6_counterexample :
    ¬ (∀ (predOrig predBias : String → ℕ) (df : TestFrame),
        (evaluate_models predOrig predBias df).frame = df) := by
  intro h
  have h0 := h (fun _ => 0) (fun _ => 0) ⟨[⟨"t", 0, 0, false⟩], none, none⟩
  have hval : (evaluate_models (fun _ => 0) (fun _ => 0)
      (⟨[⟨"t", 0, 0, false⟩], none, none⟩ : TestFrame)).frame
      = ⟨[⟨"t", 0, 0, false⟩], some [0], some [0]⟩ := rfl
  rw [hval] at h0
  exact absurd (congrArg TestFrame.predict_orig h0) (by simp)

/-- C6 (amended): `evaluate_models` mutates the test frame only by
assigning the two prediction columns; the rows and every pre-existing
column value are unchanged. -/
theorem c6_evaluate_frame_effect (predOrig predBias : String → ℕ)
    (df : TestFrame) :
    (evaluate_models predOrig predBias df).frame.rows = df.rows
      ∧ (evaluate_models predOrig predBias df).frame.predict_orig
          = some (df.rows.map fun r => predOrig r.reviews)
      ∧ (evaluate_models predOrig predBias df).frame.predict_bias
          = some (df.rows.map fun r => predBias r.reviews) :=
  ⟨rfl, rfl, rfl⟩

lemma accuracy_score_ne_none (pairs : List (ℕ × ℕ))
    (h : pairs.length ≠ 0) : ∃ q, accuracy_score pairs = some q := by
  refine ⟨((pairs.countP fun p => p.1 == p.2 : ℕ) : ℚ)
    / ((pairs.length : ℕ) : ℚ), ?_⟩
  unfold accuracy_score
  rw [if_neg h]

/-- C7 counterexample: an empty test frame contains zero biased examples
but the non-biased partition is empty too, so its accuracy cell is the
undefined value rather than a defined accuracy, contradicting the claim
as stated for every test set with zero biased examples. -/
theorem c7_counterexample :
    ¬ (∀ (predOrig predBias : String → ℕ) (df : TestFrame),
        (∀ r ∈ df.rows, r.biased = false) →
        ∃ a b : ℚ,
          (evaluate_models predOrig predBias df).results
            = [[none, some a], [none, some b]]) := by
  intro h
  obtain ⟨a, b, hab⟩ :=
    h (fun _ => 0) (fun _ => 0) ⟨[], none, none⟩ (by simp)
  have hres : (evaluate_models (fun _ => 0) (fun _ => 0)
      (⟨[], none, none⟩ : TestFrame)).results
      = [[none, none], [none, none]] := rfl
  rw [hres] at hab
  simp at hab

/-- C7 (amended): for a non-empty test set containing zero biased
examples, `evaluate_models` returns normally with all four accuracy
cells, the two biased-partition cells hold the explicit undefined value,
and the two non-biased cells hold defined accuracies. -/
theorem c7_empty_biased_partition (predOrig predBias : String → ℕ)
    (df : TestFrame) (hne : df.rows ≠ [])
    (hnb : ∀ r ∈ df.rows, r.biased = false) :
    ∃ a b : ℚ,
      (evaluate_models predOrig predBias df).results
        = [[none, some a], [none, some b]] := by
  have hbias : (predRows predOrig predBias df.rows).filter
      (fun p => p.row.biased) = [] := by
    rw [List.filter_eq_nil_iff]
    intro p hp
    unfold predRows at hp
    rw [List.mem_map] at hp
    obtain ⟨r, hr, rfl⟩ := hp
    simp [hnb r hr]
  have hnonb : (predRows predOrig predBias df.rows).filter
      (fun p => !p.row.biased) = predRows predOrig predBias df.rows := by
    rw [List.filter_eq_self]
    intro p hp
    unfold predRows at hp
    rw [List.mem_map] at hp
    obtain ⟨r, hr, rfl⟩ := hp
    simp [hnb r hr]
  have hlen : (predRows predOrig predBias df.rows).length ≠ 0 := by
    unfold predRows
    rw [List.length_map]
    intro h0
    exact hne (List.length_eq_zero.mp h0)
  obtain ⟨a, ha⟩ := accuracy_score_ne_none
    ((predRows predOrig predBias df.rows).map
      fun p => (p.row.label_orig, p.predict_orig))
    (by rw [List.length_map]; exact hlen)
  obtain ⟨b, hb⟩ := accuracy_score_ne_none
    ((predRows predOrig predBias df.rows).map
      fun p => (p.row.label_bias, p.predict_bias))
    (by rw [List.length_map]; exact hlen)
  refine ⟨a, b, ?_⟩
  have hr0 : (evaluate_models predOrig predBias df).results
      = [[accuracy_score
            (((predRows predOrig predBias df.rows).filter
              fun p => p.row.biased).map
                fun p => (p.row.label_orig, p.predict_orig)),
          accuracy_score
            (((predRows predOrig predBias df.rows).filter
              fun p => !p.row.biased).map
                fun p => (p.row.label_orig, p.predict_orig))],
         [accuracy_score
            (((predRows predOrig predBias df.rows).filter
              fun p => p.row.biased).map
                fun p => (p.row.label_bias, p.predict_bias)),
          accuracy_score
            (((predRows predOrig predBias df.rows).filter
              fun p => !p.row.biased).map
                fun p => (p.row.label_bias, p.predict_bias))]] := rfl
  rw [hr0, hbias, hnonb, List.map_nil, ha, hb]
  rfl

theorem c7_empty_biased_partition_witness :
    ((⟨[⟨"t", 1, 0, false⟩], none, none⟩ : TestFrame).rows ≠ []
      ∧ ∀ r ∈ (⟨[⟨"t", 1, 0, false⟩], none, none⟩ : TestFrame).rows,
          r.biased = false)
      ∧ ∃ a b : ℚ,
          (evaluate_models (fun _ => 1) (fun _ => 1)
            (⟨[⟨"t", 1, 0, false⟩], none, none⟩ : TestFrame)).results
            = [[none, some a], [none, some b]] :=
  ⟨⟨by decide, by decide⟩,
    c7_empty_biased_partition (fun _ => 1) (fun _ => 1)
      ⟨[⟨"t", 1, 0, false⟩], none, none⟩ (by decide) (by decide)⟩

/- ------------------------------------------------------------------ -/
/- Explainer registry (`budget_test.py` lines 64-69, 158-162)          -/
/- ------------------------------------------------------------------ -/

/-- The explainer classes registered in `budget_test.py`. -/
inductive ExplainerCtor where
  | randomE
  | greedyE
  | limeE
  | shapKmeans
  | logisticE
  | treeE
deriving Repr, DecidableEq

/-- The module-level `EXPLAINERS` registry (`budget_test.py` lines
64-69), in insertion order. -/
def EXPLAINERS : List (String × ExplainerCtor) :=
  [("Random", .randomE),
   ("Greedy", .greedyE),
   ("LIME", .limeE),
   ("SHAP(kmeans)", .shapKmeans)]

/-- Python dict assignment `d[k] = v`: overwrite an existing key in
place, else append a new entry. -/
def dictInsert (d : List (String × ExplainerCtor)) (k : String)
    (v : ExplainerCtor) : List (String × ExplainerCtor) :=
  if d.any fun kv => kv.1 == k then
    d.map fun kv => if kv.1 == k then (k, v) else kv
  else d ++ [(k, v)]

/-- The conditional registration of the ground-truth explainer in
`run_seed` (`budget_test.py` lines 158-162). -/
def addGroundTruth (model : String) (d : List (String × ExplainerCtor)) :
    List (String × ExplainerCtor) :=
  if model = "logistic" then dictInsert d "Ground Truth" .logisticE
  else if model = "dt" ∨ model = "rf" then dictInsert d "Ground Truth" .treeE
  else d

/-- Python dict lookup `d[k]` as an option. -/
def dictLookup (d : List (String × ExplainerCtor)) (k : String) :
    Option ExplainerCtor :=
  (d.find? fun kv => kv.1 == k).map fun kv => kv.2

/-- C10: the base registry has no 'Ground Truth' entry, and after the
conditional registration the 'Ground Truth' entry is the logistic
coefficient explainer exactly for model 'logistic', the tree importance
explainer exactly for 'dt' and 'rf', and absent for every other model
name. -/
theorem c10_ground_truth_registry :
    dictLookup EXPLAINERS "Ground Truth" = none
      ∧ ∀ model : String,
          dictLookup (addGroundTruth model EXPLAINERS) "Ground Truth"
            = if model = "logistic" then some .logisticE
              else if model = "dt" ∨ model = "rf" then some .treeE
              else none := by
  refine ⟨rfl, ?_⟩
  intro model
  unfold addGroundTruth
  split_ifs with h1 h2 <;> decide

/- ------------------------------------------------------------------ -/
/- Log persistence (`utils.py`, `save_log`, lines 172-219)             -/
/- ------------------------------------------------------------------ -/

/-- Decimal digits of a natural number, least significant first, with
explicit fuel so that evaluation is structural. -/
def decDigitsAux : ℕ → ℕ → List ℕ
  | 0, _ => []
  | _ + 1, 0 => []
  | fuel + 1, n + 1 => (n + 1) % 10 :: decDigitsAux fuel ((n + 1) / 10)

/-- Decimal digits of `n`, least significant first. -/
def decDigitsN (n : ℕ) : List ℕ := decDigitsAux n n

/-- Python `str(n)` for a natural number: its decimal representation. -/
def decRepr (n : ℕ) : String :=
  if n = 0 then "0" else ⟨((decDigitsN n).map Nat.digitChar).reverse⟩

/-- Python format specifiers of the form `0Nd`: the decimal
representation left-padded with zeros to the requested width. -/
def padNum (width n : ℕ) : String :=
  ⟨List.replicate (width - (decRepr n).data.length) '0' ++ (decRepr n).data⟩

lemma decDigitsAux_eq_digits (fuel : ℕ) :
    ∀ n : ℕ, n ≤ fuel → decDigitsAux fuel n = Nat.digits 10 n := by
  induction fuel with
  | zero =>
    intro n hn
    have : n = 0 := by omega
    subst this
    rw [Nat.digits_zero]
    rfl
  | succ fuel ih =>
    intro n hn
    cases n with
    | zero =>
      rw [Nat.digits_zero]
      rfl
    | succ m =>
      show (m + 1) % 10 :: decDigitsAux fuel ((m + 1) / 10) = _
      rw [Nat.digits_def' (by norm_num : (1 : ℕ) < 10) (Nat.succ_pos m)]
      rw [ih ((m + 1) / 10) (by omega)]

lemma decDigitsN_eq_digits (n : ℕ) : decDigitsN n = Nat.digits 10 n :=
  decDigitsAux_eq_digits n n le_rfl

lemma digitChar_ne_slash : ∀ d : ℕ, d < 10 → Nat.digitChar d ≠ '/' := by
  decide

lemma digitChar_ne_zero : ∀ d : ℕ, d < 10 → d ≠ 0 →
    Nat.digitChar d ≠ '0' := by
  decide

lemma digitChar_inj : ∀ d1 : ℕ, d1 < 10 → ∀ d2 : ℕ, d2 < 10 →
    Nat.digitChar d1 = Nat.digitChar d2 → d1 = d2 := by
  decide

lemma decRepr_no_slash (n : ℕ) : '/' ∉ (decRepr n).data := by
  unfold decRepr
  split_ifs with h
  · decide
  · show '/' ∉ ((decDigitsN n).map Nat.digitChar).reverse
    rw [List.mem_reverse, List.mem_map]
    rintro ⟨d, hd, hdc⟩
    rw [decDigitsN_eq_digits] at hd
    exact digitChar_ne_slash d (Nat.digits_lt_base (by norm_num) hd) hdc

lemma decRepr_ne_nil (n : ℕ) : (decRepr n).data ≠ [] := by
  unfold decRepr
  split_ifs with h
  · decide
  · show ((decDigitsN n).map Nat.digitChar).reverse ≠ []
    intro hcon
    rw [List.reverse_eq_nil_iff, List.map_eq_nil_iff,
      decDigitsN_eq_digits] at hcon
    exact (Nat.digits_ne_nil_iff_ne_zero.mpr h) hcon

lemma decRepr_head_ne_zero (n : ℕ) (h : n ≠ 0) :
    (decRepr n).data.head? ≠ some '0' := by
  unfold decRepr
  rw [if_neg h]
  show (((decDigitsN n).map Nat.digitChar).reverse).head? ≠ some '0'
  have hdig : (Nat.digits 10 n) ≠ [] := Nat.digits_ne_nil_iff_ne_zero.mpr h
  rw [← List.map_reverse, List.head?_map, decDigitsN_eq_digits,
    List.head?_reverse, List.getLast?_eq_getLast _ hdig]
  intro hcon
  have hc : Nat.digitChar ((Nat.digits 10 n).getLast hdig) = '0' := by
    simpa using hcon
  have hlt := Nat.digits_lt_base (by norm_num : (1 : ℕ) < 10)
    (List.getLast_mem hdig)
  have hnz := Nat.getLast_digit_ne_zero 10 h
  exact digitChar_ne_zero _ hlt hnz hc

lemma map_digitChar_inj : ∀ (l1 l2 : List ℕ), (∀ x ∈ l1, x < 10) →
    (∀ x ∈ l2, x < 10) →
    l1.map Nat.digitChar = l2.map Nat.digitChar → l1 = l2 := by
  intro l1
  induction l1 with
  | nil =>
    intro l2 _ _ hmap
    cases l2 with
    | nil => rfl
    | cons b t2 => simp at hmap
  | cons a t ih =>
    intro l2 h1 h2 hmap
    cases l2 with
    | nil => simp at hmap
    | cons b t2 =>
      simp only [List.map_cons, List.cons.injEq] at hmap
      have ha : a < 10 := h1 a (List.mem_cons_self a t)
      have hb : b < 10 := h2 b (List.mem_cons_self b t2)
      have hae : a = b := digitChar_inj a ha b hb hmap.1
      have hte : t = t2 := ih t2
        (fun x hx => h1 x (List.mem_cons_of_mem a hx))
        (fun x hx => h2 x (List.mem_cons_of_mem b hx)) hmap.2
      rw [hae, hte]

lemma decRepr_inj (a b : ℕ)
    (h : (decRepr a).data = (decRepr b).data) : a = b := by
  by_cases ha : a = 0 <;> by_cases hb : b = 0
  · rw [ha, hb]
  · exfalso
    rw [ha] at h
    have hcon : (decRepr b).data.head? = some '0' := by
      rw [← h]
      rfl
    exact decRepr_head_ne_zero b hb hcon
  · exfalso
    rw [hb] at h
    have hcon : (decRepr a).data.head? = some '0' := by
      rw [h]
      rfl
    exact decRepr_head_ne_zero a ha hcon
  · unfold decRepr at h
    rw [if_neg ha, if_neg hb] at h
    have hrev : ((decDigitsN a).map Nat.digitChar).reverse
        = ((decDigitsN b).map Nat.digitChar).reverse := h
    have hmap := List.reverse_injective hrev
    have hdig := map_digitChar_inj (decDigitsN a) (decDigitsN b)
      (by
        intro x hx
        rw [decDigitsN_eq_digits] at hx
        exact Nat.digits_lt_base (by norm_num) hx)
      (by
        intro x hx
        rw [decDigitsN_eq_digits] at hx
        exact Nat.digits_lt_base (by norm_num) hx)
      hmap
    rw [decDigitsN_eq_digits, decDigitsN_eq_digits] at hdig
    exact Nat.digits_inj_iff.mp hdig

lemma dropWhile_replicate_append (k : ℕ) (l : List Char) :
    List.dropWhile (fun c => c == '0') (List.replicate k '0' ++ l)
      = List.dropWhile (fun c => c == '0') l := by
  induction k with
  | zero => rfl
  | succ k ih =>
    rw [List.replicate_succ, List.cons_append, List.dropWhile_cons]
    simpa using ih

lemma dropWhile_decRepr (n : ℕ) :
    List.dropWhile (fun c => c == '0') (decRepr n).data
      = if n = 0 then [] else (decRepr n).data := by
  by_cases h : n = 0
  · rw [if_pos h, h]
    rfl
  · rw [if_neg h]
    have hh := decRepr_head_ne_zero n h
    have hne := decRepr_ne_nil n
    cases hd : (decRepr n).data with
    | nil => exact absurd hd hne
    | cons c t =>
      rw [List.dropWhile_cons]
      have hc : ¬ ((c == '0') = true) := by
        intro hbe
        have hc0 : c = '0' := by simpa using hbe
        rw [hd, hc0] at hh
        exact hh rfl
      rw [if_neg hc]

lemma padNum_inj (w a b : ℕ)
    (h : (padNum w a).data = (padNum w b).data) : a = b := by
  unfold padNum at h
  have hdrop := congrArg (List.dropWhile fun c => c == '0') h
  simp only [dropWhile_replicate_append] at hdrop
  rw [dropWhile_decRepr, dropWhile_decRepr] at hdrop
  by_cases ha : a = 0 <;> by_cases hb : b = 0
  · rw [ha, hb]
  · rw [if_pos ha, if_neg hb] at hdrop
    exact absurd hdrop.symm (decRepr_ne_nil b)
  · rw [if_neg ha, if_pos hb] at hdrop
    exact absurd hdrop (decRepr_ne_nil a)
  · rw [if_neg ha, if_neg hb] at hdrop
    exact decRepr_inj a b hdrop

lemma padNum_no_slash (w n : ℕ) : '/' ∉ (padNum w n).data := by
  unfold padNum
  show '/' ∉ List.replicate (w - (decRepr n).data.length) '0'
    ++ (decRepr n).data
  rw [List.mem_append]
  rintro (hm | hm)
  · exact absurd (List.mem_replicate.mp hm).2 (by decide)
  · exact decRepr_no_slash n hm

lemma padNum_ne_nil (w n : ℕ) : (padNum w n).data ≠ [] := by
  unfold padNum
  intro hcon
  rw [List.append_eq_nil] at hcon
  exact decRepr_ne_nil n hcon.2

lemma str_data_append (a b : String) :
    (a ++ b).data = a.data ++ b.data := by
  cases a
  cases b
  rfl

lemma head_ne_slash (l : List Char) (h0 : l ≠ []) (h : '/' ∉ l) :
    l.head? ≠ some '/' := by
  cases l with
  | nil => exact absurd rfl h0
  | cons c t =>
    intro hc
    have hcv : c = '/' := by
      have hh : (c :: t).head? = some c := rfl
      rw [hh] at hc
      injection hc
    apply h
    rw [← hcv]
    exact List.mem_cons_self c t

lemma getLast_ne_slash (l : List Char) (h0 : l ≠ []) (h : '/' ∉ l) :
    l.getLast? ≠ some '/' := by
  rw [List.getLast?_eq_getLast l h0]
  intro hc
  have hcv : l.getLast h0 = '/' := by injection hc
  exact h (hcv ▸ List.getLast_mem h0)

lemma getLast?_append_cons (a b : List Char) (hb : b ≠ []) :
    (a ++ '/' :: b).getLast? = b.getLast? := by
  rw [List.getLast?_append]
  rw [show ('/' :: b) = ['/'] ++ b from rfl, List.getLast?_append]
  rw [List.getLast?_eq_getLast b hb]
  rfl

/-- `os.path.join(a, b)` (posixpath): `b` if `b` is absolute, `a + b` if
`a` is empty or ends with the separator, else `a + '/' + b`. -/
def pyJoin (a b : String) : String :=
  if b.data.head? = some '/' then b
  else if a.data = [] ∨ a.data.getLast? = some '/' then ⟨a.data ++ b.data⟩
  else ⟨a.data ++ '/' :: b.data⟩

lemma pyJoin_data (a b : String) (hb0 : b.data ≠ []) (hb : '/' ∉ b.data)
    (ha0 : a.data ≠ []) (ha : a.data.getLast? ≠ some '/') :
    (pyJoin a b).data = a.data ++ '/' :: b.data := by
  unfold pyJoin
  rw [if_neg (head_ne_slash b.data hb0 hb), if_neg (not_or.mpr ⟨ha0, ha⟩)]

lemma pyJoin_step (a b : String) (ha0 : a.data ≠ [])
    (ha : a.data.getLast? ≠ some '/') (hb0 : b.data ≠ [])
    (hb : '/' ∉ b.data) :
    (pyJoin a b).data = a.data ++ '/' :: b.data
      ∧ (pyJoin a b).data ≠ []
      ∧ (pyJoin a b).data.getLast? ≠ some '/' := by
  have hd := pyJoin_data a b hb0 hb ha0 ha
  refine ⟨hd, ?_, ?_⟩
  · rw [hd]
    simp
  · rw [hd, getLast?_append_cons _ _ hb0]
    exact getLast_ne_slash b.data hb0 hb

lemma pyJoin_base (lr tn : String) (hlr : lr.data.getLast? ≠ some '/')
    (htn0 : tn.data ≠ []) (htn : '/' ∉ tn.data) :
    (pyJoin lr tn).data ≠ []
      ∧ (pyJoin lr tn).data.getLast? ≠ some '/'
      ∧ (lr.data = [] → (pyJoin lr tn).data = tn.data)
      ∧ (lr.data ≠ [] → (pyJoin lr tn).data = lr.data ++ '/' :: tn.data) := by
  by_cases hl : lr.data = []
  · have hdata : (pyJoin lr tn).data = tn.data := by
      unfold pyJoin
      rw [if_neg (head_ne_slash tn.data htn0 htn), if_pos (Or.inl hl)]
      show lr.data ++ tn.data = tn.data
      rw [hl]
      rfl
    exact ⟨by rw [hdata]; exact htn0,
      by rw [hdata]; exact getLast_ne_slash _ htn0 htn,
      fun _ => hdata, fun hcon => absurd hl hcon⟩
  · have hdata := pyJoin_data lr tn htn0 htn hl hlr
    refine ⟨by rw [hdata]; simp, ?_, fun hcon => absurd hcon hl, fun _ => hdata⟩
    rw [hdata, getLast?_append_cons _ _ htn0]
    exact getLast_ne_slash tn.data htn0 htn

/-- The log directory `save_log` builds for a `budget_test` record
(`utils.py` lines 189-199): `os.path.join(log_dir, test_name, dataset,
model_type, explainer, seed-dir, bias-len-dir, budget-dir)` with the
seed zero-padded to width 2, the bias length to width 1, and the budget
to width 3. -/
def saveLogDirBudget
    (log_dir test_name dataset model_type explainerName : String)
    (seed bias_len budget : ℕ) : String :=
  [test_name, dataset, model_type, explainerName,
   "seed_" ++ padNum 2 seed,
   "bias_len_" ++ padNum 1 bias_len,
   "budget_" ++ padNum 3 budget].foldl pyJoin log_dir

/-- C9 counterexample: two records that differ in the log-root component
(with versus without a trailing separator) are written to the same
directory path, so distinct tuple components do not always yield
distinct paths. -/
theorem c9_counterexample :
    ("logs" : String) ≠ "logs/"
      ∧ saveLogDirBudget "logs" "budget_test" "ds" "dt" "LIME" 1 1 1
          = saveLogDirBudget "logs/" "budget_test" "ds" "dt" "LIME" 1 1 1 := by
  exact ⟨by decide, rfl⟩

lemma split_at_first_slash :
    ∀ (a1 b1 a2 b2 : List Char), '/' ∉ a1 → '/' ∉ a2 →
      a1 ++ '/' :: b1 = a2 ++ '/' :: b2 → a1 = a2 ∧ b1 = b2 := by
  intro a1
  induction a1 with
  | nil =>
    intro b1 a2 b2 _ h2 heq
    cases a2 with
    | nil =>
      rw [List.nil_append, List.nil_append] at heq
      exact ⟨rfl, (List.cons.inj heq).2⟩
    | cons c t =>
      rw [List.nil_append, List.cons_append] at heq
      obtain ⟨hc, -⟩ := List.cons.inj heq
      refine absurd ?_ h2
      rw [hc]
      exact List.mem_cons_self c t
  | cons c t ih =>
    intro b1 a2 b2 h1 h2 heq
    cases a2 with
    | nil =>
      rw [List.cons_append, List.nil_append] at heq
      obtain ⟨hc, -⟩ := List.cons.inj heq
      refine absurd ?_ h1
      rw [← hc]
      exact List.mem_cons_self c t
    | cons c2 t2 =>
      rw [List.cons_append, List.cons_append] at heq
      obtain ⟨hc, ht⟩ := List.cons.inj heq
      have h1t : '/' ∉ t := fun hmem => h1 (List.mem_cons_of_mem c hmem)
      have h2t : '/' ∉ t2 := fun hmem => h2 (List.mem_cons_of_mem c2 hmem)
      obtain ⟨hte, hbe⟩ := ih b1 t2 b2 h1t h2t ht
      exact ⟨by rw [hc, hte], hbe⟩

lemma split_at_last_slash (x1 y1 x2 y2 : List Char) (h1 : '/' ∉ y1)
    (h2 : '/' ∉ y2) (heq : x1 ++ '/' :: y1 = x2 ++ '/' :: y2) :
    x1 = x2 ∧ y1 = y2 := by
  have hrev := congrArg List.reverse heq
  rw [List.reverse_append, List.reverse_append, List.reverse_cons,
    List.reverse_cons, List.append_assoc, List.append_assoc] at hrev
  have hrev2 : y1.reverse ++ '/' :: x1.reverse
      = y2.reverse ++ '/' :: x2.reverse := hrev
  obtain ⟨hy, hx⟩ := split_at_first_slash y1.reverse x1.reverse y2.reverse
    x2.reverse (by rw [List.mem_reverse]; exact h1)
    (by rw [List.mem_reverse]; exact h2) hrev2
  exact ⟨List.reverse_injective hx, List.reverse_injective hy⟩

lemma chain_inj (A1 A2 g2 g3 g4 g5 g6 g7 h2 h3 h4 h5 h6 h7 : List Char)
    (hg2 : '/' ∉ g2) (hg3 : '/' ∉ g3) (hg4 : '/' ∉ g4) (hg5 : '/' ∉ g5)
    (hg6 : '/' ∉ g6) (hg7 : '/' ∉ g7)
    (hh2 : '/' ∉ h2) (hh3 : '/' ∉ h3) (hh4 : '/' ∉ h4) (hh5 : '/' ∉ h5)
    (hh6 : '/' ∉ h6) (hh7 : '/' ∉ h7)
    (heq : (((((A1 ++ '/' :: g2) ++ '/' :: g3) ++ '/' :: g4) ++ '/' :: g5)
          ++ '/' :: g6) ++ '/' :: g7
        = (((((A2 ++ '/' :: h2) ++ '/' :: h3) ++ '/' :: h4) ++ '/' :: h5)
          ++ '/' :: h6) ++ '/' :: h7) :
    A1 = A2 ∧ g2 = h2 ∧ g3 = h3 ∧ g4 = h4 ∧ g5 = h5 ∧ g6 = h6 ∧ g7 = h7 := by
  obtain ⟨e6, r7⟩ := split_at_last_slash _ _ _ _ hg7 hh7 heq
  obtain ⟨e5, r6⟩ := split_at_last_slash _ _ _ _ hg6 hh6 e6
  obtain ⟨e4, r5⟩ := split_at_last_slash _ _ _ _ hg5 hh5 e5
  obtain ⟨e3, r4⟩ := split_at_last_slash _ _ _ _ hg4 hh4 e4
  obtain ⟨e2, r3⟩ := split_at_last_slash _ _ _ _ hg3 hh3 e3
  obtain ⟨e1, r2⟩ := split_at_last_slash _ _ _ _ hg2 hh2 e2
  exact ⟨e1, r2, r3, r4, r5, r6, r7⟩

lemma numSeg_ne_nil (p : String) (w n : ℕ) :
    (p ++ padNum w n).data ≠ [] := by
  rw [str_data_append]
  intro h
  rw [List.append_eq_nil] at h
  exact padNum_ne_nil w n h.2

lemma numSeg_no_slash (p : String) (hp : '/' ∉ p.data) (w n : ℕ) :
    '/' ∉ (p ++ padNum w n).data := by
  rw [str_data_append, List.mem_append]
  rintro (hmem | hmem)
  · exact hp hmem
  · exact padNum_no_slash w n hmem

lemma numSeg_inj (p : String) (w a b : ℕ)
    (h : (p ++ padNum w a).data = (p ++ padNum w b).data) : a = b := by
  rw [str_data_append, str_data_append] at h
  exact padNum_inj w a b (List.append_cancel_left h)

lemma saveLogDirBudget_data (lr tn d m e : String) (s bl b : ℕ)
    (hlr : lr.data.getLast? ≠ some '/')
    (htn0 : tn.data ≠ []) (htns : '/' ∉ tn.data)
    (hd0 : d.data ≠ []) (hds : '/' ∉ d.data)
    (hm0 : m.data ≠ []) (hms : '/' ∉ m.data)
    (he0 : e.data ≠ []) (hes : '/' ∉ e.data) :
    (saveLogDirBudget lr tn d m e s bl b).data
      = ((((((pyJoin lr tn).data ++ '/' :: d.data) ++ '/' :: m.data)
          ++ '/' :: e.data) ++ '/' :: ("seed_" ++ padNum 2 s).data)
          ++ '/' :: ("bias_len_" ++ padNum 1 bl).data)
          ++ '/' :: ("budget_" ++ padNum 3 b).data := by
  obtain ⟨hA0, hAlast, -, -⟩ := pyJoin_base lr tn hlr htn0 htns
  have hst2 := pyJoin_step (pyJoin lr tn) d hA0 hAlast hd0 hds
  have hst3 := pyJoin_step _ m hst2.2.1 hst2.2.2 hm0 hms
  have hst4 := pyJoin_step _ e hst3.2.1 hst3.2.2 he0 hes
  have hst5 := pyJoin_step _ ("seed_" ++ padNum 2 s) hst4.2.1 hst4.2.2
    (numSeg_ne_nil _ _ _) (numSeg_no_slash _ (by decide) _ _)
  have hst6 := pyJoin_step _ ("bias_len_" ++ padNum 1 bl) hst5.2.1 hst5.2.2
    (numSeg_ne_nil _ _ _) (numSeg_no_slash _ (by decide) _ _)
  have hst7 := pyJoin_step _ ("budget_" ++ padNum 3 b) hst6.2.1 hst6.2.2
    (numSeg_ne_nil _ _ _) (numSeg_no_slash _ (by decide) _ _)
  show (pyJoin (pyJoin (pyJoin (pyJoin (pyJoin (pyJoin (pyJoin lr tn) d) m)
      e) ("seed_" ++ padNum 2 s)) ("bias_len_" ++ padNum 1 bl))
      ("budget_" ++ padNum 3 b)).data = _
  rw [hst7.1, hst6.1, hst5.1, hst4.1, hst3.1, hst2.1]

lemma pyJoin_inj (lr1 tn1 lr2 tn2 : String)
    (hlr1 : lr1.data.getLast? ≠ some '/')
    (htn10 : tn1.data ≠ []) (htn1s : '/' ∉ tn1.data)
    (hlr2 : lr2.data.getLast? ≠ some '/')
    (htn20 : tn2.data ≠ []) (htn2s : '/' ∉ tn2.data)
    (h : (pyJoin lr1 tn1).data = (pyJoin lr2 tn2).data) :
    lr1 = lr2 ∧ tn1 = tn2 := by
  obtain ⟨-, -, hempty1, hfull1⟩ := pyJoin_base lr1 tn1 hlr1 htn10 htn1s
  obtain ⟨-, -, hempty2, hfull2⟩ := pyJoin_base lr2 tn2 hlr2 htn20 htn2s
  by_cases hc1 : lr1.data = [] <;> by_cases hc2 : lr2.data = []
  · rw [hempty1 hc1, hempty2 hc2] at h
    refine ⟨?_, String.ext h⟩
    apply String.ext
    rw [hc1, hc2]
  · exfalso
    rw [hempty1 hc1, hfull2 hc2] at h
    apply htn1s
    rw [h, List.mem_append]
    right
    exact List.mem_cons_self _ _
  · exfalso
    rw [hfull1 hc1, hempty2 hc2] at h
    apply htn2s
    rw [← h, List.mem_append]
    right
    exact List.mem_cons_self _ _
  · rw [hfull1 hc1, hfull2 hc2] at h
    obtain ⟨hx, hy⟩ := split_at_last_slash _ _ _ _ htn1s htn2s h
    exact ⟨String.ext hx, String.ext hy⟩

/-- C9 (amended): same tuple gives the same directory path, and for
records whose string components are non-empty and free of the path
separator and whose log root does not end with the separator — as holds
for every record `budget_test` produces — distinct tuples give distinct
paths; without those provisos the injectivity half fails. -/
theorem c9_log_path_injective
    (lr1 lr2 tn1 tn2 d1 d2 m1 m2 e1 e2 : String)
    (s1 s2 bl1 bl2 b1 b2 : ℕ)
    (hlr1 : lr1.data.getLast? ≠ some '/')
    (hlr2 : lr2.data.getLast? ≠ some '/')
    (htn10 : tn1.data ≠ []) (htn1s : '/' ∉ tn1.data)
    (htn20 : tn2.data ≠ []) (htn2s : '/' ∉ tn2.data)
    (hd10 : d1.data ≠ []) (hd1s : '/' ∉ d1.data)
    (hd20 : d2.data ≠ []) (hd2s : '/' ∉ d2.data)
    (hm10 : m1.data ≠ []) (hm1s : '/' ∉ m1.data)
    (hm20 : m2.data ≠ []) (hm2s : '/' ∉ m2.data)
    (he10 : e1.data ≠ []) (he1s : '/' ∉ e1.data)
    (he20 : e2.data ≠ []) (he2s : '/' ∉ e2.data) :
    saveLogDirBudget lr1 tn1 d1 m1 e1 s1 bl1 b1
        = saveLogDirBudget lr2 tn2 d2 m2 e2 s2 bl2 b2
      ↔ (lr1 = lr2 ∧ tn1 = tn2 ∧ d1 = d2 ∧ m1 = m2 ∧ e1 = e2
          ∧ s1 = s2 ∧ bl1 = bl2 ∧ b1 = b2) := by
  constructor
  · intro heq
    have hdata := congrArg String.data heq
    rw [saveLogDirBudget_data lr1 tn1 d1 m1 e1 s1 bl1 b1 hlr1 htn10 htn1s
        hd10 hd1s hm10 hm1s he10 he1s,
      saveLogDirBudget_data lr2 tn2 d2 m2 e2 s2 bl2 b2 hlr2 htn20 htn2s
        hd20 hd2s hm20 hm2s he20 he2s] at hdata
    obtain ⟨hA, hdd, hmm, hee, h5, h6, h7⟩ :=
      chain_inj _ _ _ _ _ _ _ _ _ _ _ _ _ _
        hd1s hm1s he1s (numSeg_no_slash _ (by decide) _ _)
        (numSeg_no_slash _ (by decide) _ _)
        (numSeg_no_slash _ (by decide) _ _)
        hd2s hm2s he2s (numSeg_no_slash _ (by decide) _ _)
        (numSeg_no_slash _ (by decide) _ _)
        (numSeg_no_slash _ (by decide) _ _)
        hdata
    obtain ⟨hlr, htn⟩ := pyJoin_inj lr1 tn1 lr2 tn2 hlr1 htn10 htn1s
      hlr2 htn20 htn2s hA
    exact ⟨hlr, htn, String.ext hdd, String.ext hmm, String.ext hee,
      numSeg_inj _ 2 _ _ h5, numSeg_inj _ 1 _ _ h6,
      numSeg_inj _ 3 _ _ h7⟩
  · rintro ⟨rfl, rfl, rfl, rfl, rfl, rfl, rfl, rfl⟩
    rfl

theorem c9_log_path_injective_witness :
    (("logs" : String).data.getLast? ≠ some '/'
      ∧ ("budget_test" : String).data ≠ []
      ∧ '/' ∉ ("budget_test" : String).data
      ∧ ("imdb" : String).data ≠ []
      ∧ '/' ∉ ("imdb" : String).data
      ∧ ("dt" : String).data ≠ []
      ∧ '/' ∉ ("dt" : String).data
      ∧ ("LIME" : String).data ≠ []
      ∧ '/' ∉ ("LIME" : String).data)
      ∧ (saveLogDirBudget "logs" "budget_test" "imdb" "dt" "LIME" 7 2 3
          = saveLogDirBudget "logs" "budget_test" "imdb" "dt" "LIME" 7 2 3
        ↔ (("logs" : String) = "logs"
            ∧ ("budget_test" : String) = "budget_test"
            ∧ ("imdb" : String) = "imdb"
            ∧ ("dt" : String) = "dt"
            ∧ ("LIME" : String) = "LIME"
            ∧ 7 = 7 ∧ 2 = 2 ∧ 3 = 3)) :=
  ⟨⟨by decide, by decide, by decide, by decide, by decide, by decide,
    by decide, by decide, by decide⟩,
    c9_log_path_injective "logs" "logs" "budget_test" "budget_test"
      "imdb" "imdb" "dt" "dt" "LIME" "LIME" 7 7 2 2 3 3
      (by decide) (by decide) (by decide) (by decide) (by decide)
      (by decide) (by decide) (by decide) (by decide) (by decide)
      (by decide) (by decide) (by decide) (by decide) (by decide)
      (by decide) (by decide) (by decide)⟩
